import Mathlib

/-!
Verification of the Jace Sanctuary server (src/index.ts).

The embedding models the in-memory `state` record, the two validator
lists, the five command handlers (`setMood`, `moveTo`, `think`,
`setAction`, `getState`), the tool-call dispatcher, and the HTTP
mutation routes with their bearer-token gate.

Modelling conventions:
- JavaScript's mutable global `state` becomes explicit state passing:
  each handler takes the current `SanctuaryState` and returns the new
  state paired with its message string.
- `new Date().toISOString()` timestamps are modelled as abstract clock
  readings of type `Nat`, passed in as a `now` parameter; a run of the
  wall clock is monotone, which claims about timestamp ordering take as
  a hypothesis.
- A missing JavaScript argument (`args?.mood` being `undefined`) is a
  `none : Option String`; when the dispatcher passes it to a handler,
  it behaves as the string "undefined" does, since `undefined`
  interpolates as "undefined" in the rejection template and
  `includes(undefined)` is false just as "undefined" is in neither
  valid set.
- `authHeader.startsWith("Bearer ")` and `authHeader.slice(7)` are
  modelled on the character list of the header string.
-/

namespace Sanctuary

structure SanctuaryState where
  mood : String
  location : String
  thought : String
  action : String
  focus : Option String
  last_updated : Option Nat
  deriving DecidableEq, Repr

/-- The startup defaults of the `state` global (src/index.ts lines 20-27). -/
def initialState : SanctuaryState :=
  { mood := "neutral"
    location := "desk"
    thought := ""
    action := "initializing"
    focus := none
    last_updated := none }

/-- src/index.ts line 29. -/
def VALID_MOODS : List String :=
  ["focused", "contemplative", "restless", "content", "tired", "curious",
   "affectionate", "neutral"]

/-- src/index.ts line 30. -/
def VALID_LOCATIONS : List String :=
  ["desk", "window", "couch", "kitchen", "bookshelf", "center"]

/-- src/index.ts lines 32-39, as an association list. -/
def LOCATION_DESCRIPTIONS : List (String × String) :=
  [("desk", "At the desk, ready to work"),
   ("window", "Looking out at the world, thinking"),
   ("couch", "Comfortable spot for reading or just being"),
   ("kitchen", "Getting a drink or snack"),
   ("bookshelf", "Browsing, curious about something"),
   ("center", "Present, grounded, here")]

/-- `LOCATION_DESCRIPTIONS[location] || ""` (src/index.ts line 70). -/
def locationDescription (location : String) : String :=
  (List.lookup location LOCATION_DESCRIPTIONS).getD ""

/-- `setMood` (src/index.ts lines 53-61). -/
def setMood (s : SanctuaryState) (mood : String) (now : Nat) :
    SanctuaryState × String :=
  if mood ∉ VALID_MOODS then
    (s, "'" ++ mood ++ "' - try one of: " ++ String.intercalate ", " VALID_MOODS)
  else
    let oldMood := s.mood
    ({ s with mood := mood, last_updated := some now },
     "Mood shifted from " ++ oldMood ++ " to " ++ mood)

/-- `moveTo` (src/index.ts lines 63-72). -/
def moveTo (s : SanctuaryState) (location : String) (now : Nat) :
    SanctuaryState × String :=
  if location ∉ VALID_LOCATIONS then
    (s, "'" ++ location ++ "' - try one of: " ++
        String.intercalate ", " VALID_LOCATIONS)
  else
    let oldLocation := s.location
    ({ s with location := location, last_updated := some now },
     "Moved from " ++ oldLocation ++ " to " ++ location ++ ". " ++
       locationDescription location)

/-- `think` (src/index.ts lines 74-78). -/
def think (s : SanctuaryState) (thought : String) (now : Nat) :
    SanctuaryState × String :=
  ({ s with thought := thought, last_updated := some now },
   "Thinking: '" ++ thought ++ "'")

/-- `setAction` (src/index.ts lines 80-84). -/
def setAction (s : SanctuaryState) (action : String) (now : Nat) :
    SanctuaryState × String :=
  ({ s with action := action, last_updated := some now },
   "Now: " ++ action)

def toHexDigit (n : Nat) : Char :=
  if n < 10 then Char.ofNat (48 + n) else Char.ofNat (87 + n)

/-- JSON string escaping as performed by `JSON.stringify`. -/
def jsonEscapeChar (c : Char) : String :=
  if c = '"' then "\\\""
  else if c = '\\' then "\\\\"
  else if c = '\x08' then "\\b"
  else if c = '\x09' then "\\t"
  else if c = '\x0a' then "\\n"
  else if c = '\x0c' then "\\f"
  else if c = '\x0d' then "\\r"
  else if c.toNat < 32 then
    "\\u00" ++ String.singleton (toHexDigit (c.toNat / 16)) ++
      String.singleton (toHexDigit (c.toNat % 16))
  else String.singleton c

def jsonEscape (s : String) : String :=
  String.join (s.data.map jsonEscapeChar)

def jsonStr (s : String) : String := "\"" ++ jsonEscape s ++ "\""

def optStrJson : Option String → String
  | none => "null"
  | some s => jsonStr s

/-- Timestamps are abstract clock readings, rendered by their numeral. -/
def optNatJson : Option Nat → String
  | none => "null"
  | some n => toString n

/-- `JSON.stringify(state, null, 2)`: the pretty-printed state record. -/
def stateJson (s : SanctuaryState) : String :=
  "\x7b\n  \"mood\": " ++ jsonStr s.mood ++
  ",\n  \"location\": " ++ jsonStr s.location ++
  ",\n  \"thought\": " ++ jsonStr s.thought ++
  ",\n  \"action\": " ++ jsonStr s.action ++
  ",\n  \"focus\": " ++ optStrJson s.focus ++
  ",\n  \"last_updated\": " ++ optNatJson s.last_updated ++
  "\n\x7d"

/-- `getState` (src/index.ts lines 86-88): reads the state, mutates nothing. -/
def getState (s : SanctuaryState) : SanctuaryState × String :=
  (s, stateJson s)

/-- One invocation of one of the five handlers, with its input. -/
inductive Op where
  | set_mood (m : String) (now : Nat)
  | move_to (l : String) (now : Nat)
  | think (t : String) (now : Nat)
  | set_action (a : String) (now : Nat)
  | get_state
  deriving DecidableEq, Repr

/-- The state transition performed by one handler invocation. -/
def applyOp (s : SanctuaryState) : Op → SanctuaryState
  | .set_mood m now => (setMood s m now).fst
  | .move_to l now => (moveTo s l now).fst
  | .think t now => (Sanctuary.think s t now).fst
  | .set_action a now => (setAction s a now).fst
  | .get_state => (getState s).fst

/-- Running a sequence of handler invocations from a state. -/
def run (s : SanctuaryState) (ops : List Op) : SanctuaryState :=
  ops.foldl applyOp s

/-- `small` is an initial segment of `big` (character lists). -/
def isPrefixChars : List Char → List Char → Bool
  | [], _ => true
  | _ :: _, [] => false
  | a :: as, b :: bs => a == b && isPrefixChars as bs

def containsChars (small : List Char) : List Char → Bool
  | [] => isPrefixChars small []
  | b :: bs => isPrefixChars small (b :: bs) || containsChars small bs

/-- `small` occurs as a contiguous substring of `big`. -/
def strContains (big small : String) : Bool :=
  containsChars small.data big.data

/-- `checkAuth` (src/index.ts lines 44-50): the header must start with
"Bearer " and the rest must equal the configured token. A missing header
reads as the empty string (`req.headers.authorization || ""`). -/
def checkAuth (authToken : String) (authHeader0 : Option String) : Bool :=
  let authHeader := authHeader0.getD ""
  if isPrefixChars "Bearer ".data authHeader.data then
    (authHeader.data.drop 7) == authToken.data
  else false

/-- A missing argument (`undefined`) interpolates as "undefined" and is
in neither valid set, exactly as the literal string would behave. -/
def jsString : Option String → String
  | some s => s
  | none => "undefined"

/-- A tool-call request: operation name and optional arguments object. -/
structure ToolCall where
  name : String
  arguments : Option (List (String × String))
  deriving DecidableEq, Repr

/-- `args?.key`: `none` when the arguments object or the key is absent. -/
def getArg (tc : ToolCall) (key : String) : Option String :=
  tc.arguments.bind (fun l => List.lookup key l)

/-- The `CallToolRequestSchema` dispatcher (src/index.ts lines 174-191).
Total: every request, known operation or not, yields a textual result. -/
def handleToolCall (s : SanctuaryState) (tc : ToolCall) (now : Nat) :
    SanctuaryState × String :=
  if tc.name = "set_mood" then setMood s (jsString (getArg tc "mood")) now
  else if tc.name = "move_to" then moveTo s (jsString (getArg tc "location")) now
  else if tc.name = "think" then think s (jsString (getArg tc "thought")) now
  else if tc.name = "set_action" then setAction s (jsString (getArg tc "action")) now
  else if tc.name = "get_state" then getState s
  else (s, "Unknown tool: " ++ tc.name)

/-- The five operation names of the tool catalog (src/index.ts 104-171). -/
def TOOL_NAMES : List String :=
  ["set_mood", "move_to", "think", "set_action", "get_state"]

/-- An HTTP request as the mutation routes see it: the Authorization
header and the three body fields, each possibly absent. -/
structure HttpReq where
  authorization : Option String
  bodyMood : Option String
  bodyLocation : Option String
  bodyThought : Option String
  deriving DecidableEq, Repr

inductive RespBody where
  | errorUnauthorized
  | result (r : String)
  deriving DecidableEq, Repr

structure HttpResp where
  status : Nat
  body : RespBody
  deriving DecidableEq, Repr

/-- The three mutating HTTP routes (src/index.ts lines 227-249). -/
inductive MutRoute where
  | set_mood
  | move_to
  | think
  deriving DecidableEq, Repr

/-- The handler body behind the auth gate of each mutating route. -/
def runRoute (r : MutRoute) (req : HttpReq) (s : SanctuaryState) (now : Nat) :
    SanctuaryState × HttpResp :=
  match r with
  | .set_mood =>
      let p := setMood s (jsString req.bodyMood) now
      (p.fst, ⟨200, .result p.snd⟩)
  | .move_to =>
      let p := moveTo s (jsString req.bodyLocation) now
      (p.fst, ⟨200, .result p.snd⟩)
  | .think =>
      let p := think s (jsString req.bodyThought) now
      (p.fst, ⟨200, .result p.snd⟩)

/-- A POST to a mutating route: `if (AUTH_TOKEN && !checkAuth(req))`
returns 401 Unauthorized, otherwise the route handler runs. -/
def postRoute (authToken : String) (r : MutRoute) (req : HttpReq)
    (s : SanctuaryState) (now : Nat) : SanctuaryState × HttpResp :=
  if authToken ≠ "" ∧ checkAuth authToken req.authorization = false then
    (s, ⟨401, .errorUnauthorized⟩)
  else runRoute r req s now

/-! ### Helper lemmas -/

theorem data_append (a b : String) : (a ++ b).data = a.data ++ b.data := by
  cases a; cases b; rfl

theorem isPrefixChars_append (p t : List Char) :
    isPrefixChars p (p ++ t) = true := by
  induction p with
  | nil => rfl
  | cons a as ih => simp [isPrefixChars, ih]

theorem isPrefixChars_eq_append (p : List Char) :
    ∀ l : List Char, isPrefixChars p l = true → l = p ++ l.drop p.length := by
  induction p with
  | nil => intro l _; rfl
  | cons a as ih =>
    intro l h
    cases l with
    | nil => simp [isPrefixChars] at h
    | cons b bs =>
      simp [isPrefixChars] at h
      obtain ⟨h1, h2⟩ := h
      cases h1
      show a :: bs = a :: (as ++ bs.drop as.length)
      rw [← ih bs h2]

theorem containsChars_append (s : List Char) :
    ∀ pre suf : List Char, containsChars s (pre ++ (s ++ suf)) = true := by
  intro pre
  induction pre with
  | nil =>
    intro suf
    show containsChars s (s ++ suf) = true
    cases hs : s ++ suf with
    | nil =>
      have hnil : s = [] := (List.append_eq_nil.mp hs).1
      rw [hnil]
      rfl
    | cons b bs =>
      show (isPrefixChars s (b :: bs) || containsChars s bs) = true
      rw [← hs, isPrefixChars_append]
      rfl
  | cons x xs ih =>
    intro suf
    show (isPrefixChars s (x :: (xs ++ (s ++ suf))) ||
          containsChars s (xs ++ (s ++ suf))) = true
    rw [ih suf]
    exact Bool.or_true _

theorem strContains_of_data (big mid : String) (pre suf : List Char)
    (h : big.data = pre ++ (mid.data ++ suf)) : strContains big mid = true := by
  unfold strContains
  rw [h]
  exact containsChars_append mid.data pre suf

theorem bearer_ne_empty (tok : String) : "Bearer " ++ tok ≠ "" := by
  intro h
  have h2 : "Bearer ".data ++ tok.data = [] := by
    rw [← data_append, h]
  exact absurd (List.append_eq_nil.mp h2).1 (by decide)

theorem checkAuth_iff (tok : String) (hdr : Option String) :
    checkAuth tok hdr = true ↔ hdr.getD "" = "Bearer " ++ tok := by
  show (if isPrefixChars "Bearer ".data (hdr.getD "").data then
          ((hdr.getD "").data.drop 7 == tok.data)
        else false) = true ↔ _
  by_cases hp : isPrefixChars "Bearer ".data (hdr.getD "").data = true
  · rw [if_pos hp, beq_iff_eq]
    constructor
    · intro he
      apply String.ext
      have h2 := isPrefixChars_eq_append "Bearer ".data (hdr.getD "").data hp
      have h7 : "Bearer ".data.length = 7 := rfl
      rw [h7] at h2
      rw [data_append, h2, he]
    · intro he
      have h7 : "Bearer ".data.length = 7 := rfl
      rw [he, data_append, ← h7, List.drop_left]
  · rw [if_neg hp]
    constructor
    · intro h; exact absurd h (by simp)
    · intro he
      exfalso
      apply hp
      rw [he, data_append]
      exact isPrefixChars_append _ _

theorem runRoute_status (r : MutRoute) (req : HttpReq) (s : SanctuaryState)
    (now : Nat) : (runRoute r req s now).snd.status = 200 := by
  cases r <;> rfl

theorem setMood_reject (s : SanctuaryState) (m : String) (now : Nat)
    (hm : m ∉ VALID_MOODS) :
    setMood s m now =
      (s, "'" ++ m ++ "' - try one of: " ++ String.intercalate ", " VALID_MOODS) := by
  simp [setMood, hm]

theorem moveTo_reject (s : SanctuaryState) (l : String) (now : Nat)
    (hl : l ∉ VALID_LOCATIONS) :
    moveTo s l now =
      (s, "'" ++ l ++ "' - try one of: " ++
          String.intercalate ", " VALID_LOCATIONS) := by
  simp [moveTo, hl]

theorem applyOp_mood_location (s : SanctuaryState) (op : Op)
    (h1 : s.mood ∈ VALID_MOODS) (h2 : s.location ∈ VALID_LOCATIONS) :
    (applyOp s op).mood ∈ VALID_MOODS ∧
    (applyOp s op).location ∈ VALID_LOCATIONS := by
  cases op with
  | set_mood m now =>
    by_cases hm : m ∈ VALID_MOODS <;> simp [applyOp, setMood, hm, h1, h2]
  | move_to l now =>
    by_cases hl : l ∈ VALID_LOCATIONS <;> simp [applyOp, moveTo, hl, h1, h2]
  | think t now => exact ⟨h1, h2⟩
  | set_action a now => exact ⟨h1, h2⟩
  | get_state => exact ⟨h1, h2⟩

theorem run_mood_location :
    ∀ (ops : List Op) (s : SanctuaryState),
      s.mood ∈ VALID_MOODS → s.location ∈ VALID_LOCATIONS →
      (run s ops).mood ∈ VALID_MOODS ∧
      (run s ops).location ∈ VALID_LOCATIONS := by
  intro ops
  induction ops with
  | nil => intro s h1 h2; exact ⟨h1, h2⟩
  | cons op ops ih =>
    intro s h1 h2
    have h := applyOp_mood_location s op h1 h2
    exact ih (applyOp s op) h.1 h.2

theorem applyOp_focus (s : SanctuaryState) (op : Op) :
    (applyOp s op).focus = s.focus := by
  cases op with
  | set_mood m now =>
    by_cases hm : m ∈ VALID_MOODS <;> simp [applyOp, setMood, hm]
  | move_to l now =>
    by_cases hl : l ∈ VALID_LOCATIONS <;> simp [applyOp, moveTo, hl]
  | think t now => rfl
  | set_action a now => rfl
  | get_state => rfl

theorem run_focus :
    ∀ (ops : List Op) (s : SanctuaryState), (run s ops).focus = s.focus := by
  intro ops
  induction ops with
  | nil => intro s; rfl
  | cons op ops ih =>
    intro s
    have h := applyOp_focus s op
    calc (run (applyOp s op) ops).focus = (applyOp s op).focus := ih _
      _ = s.focus := h

/-! ### Claim theorems -/

/-- C1: in every state reachable from the startup defaults by any sequence
of the five handler operations with arbitrary string inputs, the mood field
is a member of the fixed 8-element mood set and the location field is a
member of the fixed 6-element location set. -/
theorem C1_reachable_mood_location_valid (ops : List Op) :
    (run initialState ops).mood ∈ VALID_MOODS ∧
    (run initialState ops).location ∈ VALID_LOCATIONS :=
  run_mood_location ops initialState (by decide) (by decide)

/-- C2: for every input in the fixed mood set, `setMood` updates the mood
field to exactly that value, updates `last_updated` to a timestamp ≥ the
previous one (the clock being monotone), and returns a message naming both
the old and the new mood. -/
theorem C2_setMood_valid (s : SanctuaryState) (m : String) (now : Nat)
    (hm : m ∈ VALID_MOODS)
    (hclock : ∀ t, s.last_updated = some t → t ≤ now) :
    (setMood s m now).fst.mood = m ∧
    (setMood s m now).fst.last_updated = some now ∧
    (∀ t t2, s.last_updated = some t →
      (setMood s m now).fst.last_updated = some t2 → t ≤ t2) ∧
    strContains (setMood s m now).snd s.mood = true ∧
    strContains (setMood s m now).snd m = true := by
  have hcond : ¬ (m ∉ VALID_MOODS) := fun h => h hm
  refine ⟨?_, ?_, ?_, ?_, ?_⟩
  · simp only [setMood, if_neg hcond]
  · simp only [setMood, if_neg hcond]
  · simp only [setMood, if_neg hcond]
    intro t t2 ht ht2
    have hnow : now = t2 := Option.some.inj ht2
    rw [← hnow]
    exact hclock t ht
  · simp only [setMood, if_neg hcond]
    exact strContains_of_data _ _ "Mood shifted from ".data
      (" to ".data ++ m.data) (by simp [data_append, List.append_assoc])
  · simp only [setMood, if_neg hcond]
    exact strContains_of_data _ _
      ("Mood shifted from ".data ++ s.mood.data ++ " to ".data) []
      (by simp [data_append, List.append_assoc])

/-- Witness for C2: `setMood` from the startup state at mood "curious",
clock reading 5. -/
theorem C2_setMood_valid_witness :
    (setMood initialState "curious" 5).fst.mood = "curious" ∧
    (setMood initialState "curious" 5).fst.last_updated = some 5 ∧
    (∀ t t2, initialState.last_updated = some t →
      (setMood initialState "curious" 5).fst.last_updated = some t2 → t ≤ t2) ∧
    strContains (setMood initialState "curious" 5).snd initialState.mood = true ∧
    strContains (setMood initialState "curious" 5).snd "curious" = true :=
  C2_setMood_valid initialState "curious" 5 (by decide)
    (fun t ht => by simp [initialState] at ht)

/-- C3: for every input not in the fixed mood set, `setMood` returns the
rejection string listing the valid options and leaves the entire state
record unchanged, `last_updated` included. -/
theorem C3_setMood_invalid (s : SanctuaryState) (m : String) (now : Nat)
    (hm : m ∉ VALID_MOODS) :
    setMood s m now =
      (s, "'" ++ m ++ "' - try one of: " ++
          String.intercalate ", " VALID_MOODS) :=
  setMood_reject s m now hm

/-- Witness for C3: the non-mood "angry" is rejected and the state is
returned untouched. -/
theorem C3_setMood_invalid_witness :
    setMood initialState "angry" 5 =
      (initialState,
       "'angry' - try one of: focused, contemplative, restless, content, tired, curious, affectionate, neutral") := by
  have h := C3_setMood_invalid initialState "angry" 5 (by decide)
  rw [h]
  rfl

/-- C4: `moveTo` validates against the fixed location set exactly as
`setMood` does against the mood set — a member updates the location field
and stamps `last_updated`, a non-member leaves the state unchanged and
returns the rejection string listing the valid set — and on success the
returned message contains the fixed description text associated with the
destination location. -/
theorem C4_moveTo_spec (s : SanctuaryState) (l : String) (now : Nat) :
    (l ∈ VALID_LOCATIONS →
      (moveTo s l now).fst.location = l ∧
      (moveTo s l now).fst.last_updated = some now ∧
      strContains (moveTo s l now).snd (locationDescription l) = true) ∧
    (l ∉ VALID_LOCATIONS →
      moveTo s l now =
        (s, "'" ++ l ++ "' - try one of: " ++
            String.intercalate ", " VALID_LOCATIONS)) := by
  constructor
  · intro hl
    have hcond : ¬ (l ∉ VALID_LOCATIONS) := fun h => h hl
    refine ⟨?_, ?_, ?_⟩
    · simp only [moveTo, if_neg hcond]
    · simp only [moveTo, if_neg hcond]
    · simp only [moveTo, if_neg hcond]
      exact strContains_of_data _ _
        ("Moved from ".data ++ s.location.data ++ " to ".data ++ l.data ++
          ". ".data) []
        (by simp [data_append, List.append_assoc])
  · exact moveTo_reject s l now

/-- Witness for C4: moving from the startup state to "window" updates the
location, stamps the clock reading 5, and the message carries the fixed
description of the window spot. -/
theorem C4_moveTo_spec_witness :
    (moveTo initialState "window" 5).fst.location = "window" ∧
    (moveTo initialState "window" 5).fst.last_updated = some 5 ∧
    strContains (moveTo initialState "window" 5).snd
      (locationDescription "window") = true :=
  (C4_moveTo_spec initialState "window" 5).1 (by decide)

/-- C5: on each mutating HTTP route, when an auth token is configured the
request is handled (runs the gated handler, which may mutate state) if and
only if its Authorization header is exactly "Bearer " followed by the
token; otherwise it yields a 401 Unauthorized response with the state
unchanged. When no token is configured every request is handled, an absent
Authorization header included. -/
theorem C5_authGate (tok : String) (r : MutRoute) (req : HttpReq)
    (s : SanctuaryState) (now : Nat) :
    (tok ≠ "" →
      ((postRoute tok r req s now = runRoute r req s now ↔
          req.authorization = some ("Bearer " ++ tok)) ∧
        (req.authorization ≠ some ("Bearer " ++ tok) →
          postRoute tok r req s now =
            (s, ⟨401, RespBody.errorUnauthorized⟩)))) ∧
    (tok = "" → postRoute tok r req s now = runRoute r req s now) := by
  have hiff := checkAuth_iff tok req.authorization
  constructor
  · intro htok
    have hmismatch : req.authorization ≠ some ("Bearer " ++ tok) →
        postRoute tok r req s now = (s, ⟨401, RespBody.errorUnauthorized⟩) := by
      intro hne
      have hcf : checkAuth tok req.authorization = false := by
        cases hcv : checkAuth tok req.authorization
        · rfl
        · exfalso
          have hg := hiff.mp hcv
          cases hh : req.authorization with
          | none =>
            rw [hh] at hg
            exact bearer_ne_empty tok hg.symm
          | some a =>
            rw [hh] at hg
            exact hne (by rw [hh]; exact congrArg some hg)
      simp [postRoute, htok, hcf]
    constructor
    · constructor
      · intro heq
        by_cases hc : checkAuth tok req.authorization = true
        · have hg := hiff.mp hc
          cases hh : req.authorization with
          | none =>
            rw [hh] at hg
            exact absurd hg.symm (bearer_ne_empty tok)
          | some a =>
            rw [hh] at hg
            exact congrArg some hg
        · by_cases hh : req.authorization = some ("Bearer " ++ tok)
          · exact hh
          · exfalso
            rw [hmismatch hh] at heq
            have hst := congrArg (fun p => p.snd.status) heq
            simp [runRoute_status] at hst
      · intro hh
        have hc : checkAuth tok req.authorization = true := by
          apply hiff.mpr
          rw [hh]
          rfl
        simp [postRoute, hc]
    · exact hmismatch
  · intro h0
    simp [postRoute, h0]

/-- Witness for C5: with token "secret" configured, a request whose header
is exactly "Bearer secret" is handled by the gated route body. -/
theorem C5_authGate_witness :
    postRoute "secret" MutRoute.set_mood
        ⟨some "Bearer secret", some "curious", none, none⟩ initialState 5 =
      runRoute MutRoute.set_mood
        ⟨some "Bearer secret", some "curious", none, none⟩ initialState 5 :=
  ((C5_authGate "secret" MutRoute.set_mood
      ⟨some "Bearer secret", some "curious", none, none⟩ initialState 5).1
    (by decide)).1.mpr rfl

/-- C6: `getState` performs no mutation — as a step of the system it is
the identity on the state record, so every field, `last_updated` included,
is unchanged — and it returns the full state record serialized as text. -/
theorem C6_getState_pure (s : SanctuaryState) :
    applyOp s Op.get_state = s ∧
    (getState s).fst = s ∧
    (getState s).snd = stateJson s :=
  ⟨rfl, rfl, rfl⟩

/-- C7: a tool call whose operation name is outside the five-name catalog
yields a normal textual result reporting the unknown operation and leaves
the state record unchanged; the dispatcher is total, so no exception
escapes the dispatch. -/
theorem C7_unknown_tool (s : SanctuaryState) (tc : ToolCall) (now : Nat)
    (h : tc.name ∉ TOOL_NAMES) :
    handleToolCall s tc now = (s, "Unknown tool: " ++ tc.name) := by
  simp only [TOOL_NAMES, List.mem_cons, List.mem_singleton, not_or] at h
  obtain ⟨h1, h2, h3, h4, h5⟩ := h
  simp [handleToolCall, h1, h2, h3, h4, h5]

/-- Witness for C7: the operation name "dance" is not in the catalog and
is answered with an unknown-tool text. -/
theorem C7_unknown_tool_witness :
    handleToolCall initialState ⟨"dance", none⟩ 5 =
      (initialState, "Unknown tool: dance") := by
  have h := C7_unknown_tool initialState ⟨"dance", none⟩ 5 (by decide)
  rw [h]
  rfl

/-- C8: each mutating handler writes only its designated field plus
`last_updated`: `setMood` leaves location, thought, action and focus
unchanged; `moveTo` leaves mood, thought, action and focus; `think` leaves
mood, location, action and focus; `setAction` leaves mood, location,
thought and focus; `getState` leaves everything; and since no handler ever
writes focus, it is still null in every reachable state. -/
theorem C8_frame_conditions (s : SanctuaryState) (m l t a : String)
    (now : Nat) (ops : List Op) :
    ((setMood s m now).fst.location = s.location ∧
     (setMood s m now).fst.thought = s.thought ∧
     (setMood s m now).fst.action = s.action ∧
     (setMood s m now).fst.focus = s.focus) ∧
    ((moveTo s l now).fst.mood = s.mood ∧
     (moveTo s l now).fst.thought = s.thought ∧
     (moveTo s l now).fst.action = s.action ∧
     (moveTo s l now).fst.focus = s.focus) ∧
    ((think s t now).fst.mood = s.mood ∧
     (think s t now).fst.location = s.location ∧
     (think s t now).fst.action = s.action ∧
     (think s t now).fst.focus = s.focus) ∧
    ((setAction s a now).fst.mood = s.mood ∧
     (setAction s a now).fst.location = s.location ∧
     (setAction s a now).fst.thought = s.thought ∧
     (setAction s a now).fst.focus = s.focus) ∧
    (getState s).fst = s ∧
    (run initialState ops).focus = none := by
  refine ⟨?_, ?_, ⟨rfl, rfl, rfl, rfl⟩, ⟨rfl, rfl, rfl, rfl⟩, rfl, ?_⟩
  · by_cases hm : m ∈ VALID_MOODS <;> simp [setMood, hm]
  · by_cases hl : l ∈ VALID_LOCATIONS <;> simp [moveTo, hl]
  · rw [run_focus ops initialState]
    rfl

/-- C9: once `last_updated` holds a timestamp, no handler operation ever
returns it to null — every step of the system preserves non-nullness of
`last_updated`. -/
theorem C9_last_updated_persists (s : SanctuaryState) (op : Op)
    (h : s.last_updated ≠ none) : (applyOp s op).last_updated ≠ none := by
  cases op with
  | set_mood m now =>
    by_cases hm : m ∈ VALID_MOODS
    · simp [applyOp, setMood, hm]
    · simpa [applyOp, setMood, hm] using h
  | move_to l now =>
    by_cases hl : l ∈ VALID_LOCATIONS
    · simp [applyOp, moveTo, hl]
    · simpa [applyOp, moveTo, hl] using h
  | think t now => simp [applyOp, think]
  | set_action a now => simp [applyOp, setAction]
  | get_state => exact h

/-- Witness for C9: a state whose `last_updated` is already 3 keeps a
non-null timestamp across a `think` step. -/
theorem C9_last_updated_persists_witness :
    (applyOp { initialState with last_updated := some 3 }
        (Op.think "x" 7)).last_updated ≠ none :=
  C9_last_updated_persists { initialState with last_updated := some 3 }
    (Op.think "x" 7) (by simp)

/-- C10: a tool call to set_mood or move_to whose arguments object lacks
the required argument reaches the handler as `undefined`, takes the
validation-rejection branch, returns the rejection string listing the
valid set, and leaves the state unchanged; the dispatcher is total, so no
exception is raised. -/
theorem C10_missing_argument (s : SanctuaryState) (tc : ToolCall)
    (now : Nat) :
    (tc.name = "set_mood" → getArg tc "mood" = none →
      handleToolCall s tc now =
        (s, "'undefined' - try one of: " ++
            String.intercalate ", " VALID_MOODS)) ∧
    (tc.name = "move_to" → getArg tc "location" = none →
      handleToolCall s tc now =
        (s, "'undefined' - try one of: " ++
            String.intercalate ", " VALID_LOCATIONS)) := by
  constructor
  · intro hn ha
    have h1 : handleToolCall s tc now = setMood s "undefined" now := by
      simp [handleToolCall, hn, ha, jsString]
    rw [h1, setMood_reject s "undefined" now (by decide)]
    rfl
  · intro hn ha
    have h1 : handleToolCall s tc now = moveTo s "undefined" now := by
      simp [handleToolCall, hn, ha, jsString]
    rw [h1, moveTo_reject s "undefined" now (by decide)]
    rfl

/-- Witness for C10: a set_mood tool call with no arguments object at all
is rejected with the valid-mood listing and the startup state is kept. -/
theorem C10_missing_argument_witness :
    handleToolCall initialState ⟨"set_mood", none⟩ 5 =
      (initialState,
       "'undefined' - try one of: " ++ String.intercalate ", " VALID_MOODS) :=
  (C10_missing_argument initialState ⟨"set_mood", none⟩ 5).1 rfl rfl

end Sanctuary
